import Mathlib

/-!
Verification of the openai-nim-proxy repository (iFlow proxy variants).

The embedding models, over `List Char` as the string type:

* `cleanResponse` — the reasoning-markup stripping function of `src/server.js`
  (chained global case-insensitive non-greedy regex removals, then trim);
* the SSE streaming relay of `processChat` in `src/server.js`
  (line buffering across chunks, `[DONE]` sentinel handling, JSON
  parse/re-serialize of data lines with delta-content rewriting);
* the request-level behaviour of `processChat` in both variants
  (`src/server.js`, the creative-writing variant, and the plain variant):
  API-key check, field validation, model mapping, default parameters and
  system-prompt augmentation.

JavaScript semantics modelled explicitly: string falsiness of empty
strings, truthiness of empty arrays, `||` defaulting, object key order and
duplicate-key overwrite in `JSON.parse`, the sloppy-mode no-op of property
assignment on non-objects, the prototype chain walked by the property read
`MODELS[model]` (inherited `Object.prototype` members are truthy and
survive the `||` fallback), and the type error thrown by `data.choices`
when the parsed payload is `null`.  JSON numbers are kept as their lexical
tokens; none of the verified inputs exercises numeric normalisation.
-/

/-! ## Character and list-of-char helpers -/

/-- Lower-casing as used by case-insensitive regex matching on the pattern
alphabet that occurs in the source (ASCII letters plus the Latin-1 letters
of the mojibake bracket tag). -/
def jsLowerChar (c : Char) : Char :=
  if 'A' ≤ c ∧ c ≤ 'Z' then Char.ofNat (c.toNat + 32)
  else if c = 'Æ' then 'æ'
  else if c = 'È' then 'è'
  else if c = 'Ƒ' then 'ƒ'
  else c

/-- Case-sensitive list prefix test (JS `String.prototype.startsWith`). -/
def isPrefixB : List Char → List Char → Bool
  | [], _ => true
  | _ :: _, [] => false
  | a :: ps, b :: ss => (a == b) && isPrefixB ps ss

/-- Case-sensitive substring test (JS `String.prototype.includes`). -/
def containsSub (needle : List Char) : List Char → Bool
  | [] => isPrefixB needle []
  | c :: rest => isPrefixB needle (c :: rest) || containsSub needle rest

/-- Case-insensitive prefix test, used for regex literal matching. -/
def ciPrefixB : List Char → List Char → Bool
  | [], _ => true
  | _ :: _, [] => false
  | a :: ps, b :: ss => (jsLowerChar a == jsLowerChar b) && ciPrefixB ps ss

/-- Find the first (leftmost) case-insensitive occurrence of `pat`,
returning the text before the match and the text after it. -/
def findTag (pat : List Char) : List Char → Option (List Char × List Char)
  | [] => if ciPrefixB pat [] then some ([], []) else none
  | c :: cs =>
    if ciPrefixB pat (c :: cs) then some ([], (c :: cs).drop pat.length)
    else (findTag pat cs).map (fun pr => (c :: pr.1, pr.2))

/-- One global replace of the non-greedy case-insensitive regex
`opn[\s\S]*?cls` by the empty string: repeatedly, the leftmost occurrence
of the opening tag paired with the first closing tag after it is removed
(delimiters included), and scanning resumes after the removed span.  Fuel
bounds the number of removals; each removal consumes at least one input
character, so `s.length` fuel is always sufficient. -/
def replaceTagAux (opn cls : List Char) : Nat → List Char → List Char
  | 0, s => s
  | Nat.succ fuel, s =>
    match findTag opn s with
    | none => s
    | some (pre, afterOpen) =>
      match findTag cls afterOpen with
      | none => s
      | some (_, afterClose) => pre ++ replaceTagAux opn cls fuel afterClose

/-- Global removal of one tag pair, as performed by one
`text.replace(/opn[\s\S]*?cls/gi, "")` call in the source. -/
def replaceTag (opn cls s : List Char) : List Char :=
  replaceTagAux opn cls s.length s

/-- JS `String.prototype.trim` whitespace set (the code points relevant to
this code base: ASCII whitespace, NBSP, line and paragraph separators and
the BOM). -/
def isJsWs (c : Char) : Bool :=
  c = ' ' || c = '\t' || c = '\n' || c = '\r' ||
  c = Char.ofNat 0x0b || c = Char.ofNat 0x0c || c = Char.ofNat 0xa0 ||
  c = Char.ofNat 0x2028 || c = Char.ofNat 0x2029 || c = Char.ofNat 0xfeff

/-- JS `String.prototype.trim`. -/
def jsTrim (s : List Char) : List Char :=
  ((s.dropWhile isJsWs).reverse.dropWhile isJsWs).reverse

/-! ## The text cleaning transform (`cleanResponse`, src/server.js:73-90) -/

def tagThinkO : List Char := "<think>".data
def tagThinkC : List Char := "</think>".data
def tagReasonO : List Char := "[Reasoning]".data
def tagReasonC : List Char := "[/Reasoning]".data
def tagCnO : List Char := "[æ€è€ƒ]".data
def tagCnC : List Char := "[/æ€è€ƒ]".data
def tagThinkingO : List Char := "<thinking>".data
def tagThinkingC : List Char := "</thinking>".data

/-- The four chained regex removal passes of `cleanResponse`, in source
order. -/
def removePasses (s : List Char) : List Char :=
  replaceTag tagThinkingO tagThinkingC
    (replaceTag tagCnO tagCnC
      (replaceTag tagReasonO tagReasonC
        (replaceTag tagThinkO tagThinkC s)))

/-- Model of `cleanResponse` (src/server.js:73-90): falsy (empty) input is
returned as-is; otherwise the four removal passes run and the result is
trimmed. -/
def cleanResponse (s : List Char) : List Char :=
  if s = [] then s else jsTrim (removePasses s)

/-! ## JSON values (the subset semantics of `JSON.parse` / `JSON.stringify`
exercised by the relay).  Numbers are kept as lexical tokens. -/

inductive Jv where
  | jnull : Jv
  | jbool : Bool → Jv
  | jnum : List Char → Jv
  | jstr : List Char → Jv
  | jarr : List Jv → Jv
  | jobj : List (List Char × Jv) → Jv

/-- JSON whitespace accepted by `JSON.parse`. -/
def jsonWs (c : Char) : Bool :=
  c = ' ' || c = '\t' || c = '\n' || c = '\r'

def skipWs (s : List Char) : List Char := s.dropWhile jsonWs

def hexVal (c : Char) : Option Nat :=
  if '0' ≤ c ∧ c ≤ '9' then some (c.toNat - ('0').toNat)
  else if 'a' ≤ c ∧ c ≤ 'f' then some (c.toNat - ('a').toNat + 10)
  else if 'A' ≤ c ∧ c ≤ 'F' then some (c.toNat - ('A').toNat + 10)
  else none

/-- Parse the body of a JSON string after the opening quote: returns the
decoded content and the input after the closing quote.  Raw control
characters are rejected; the standard escapes are decoded. -/
def parseStrBody : Nat → List Char → Option (List Char × List Char)
  | 0, _ => none
  | _, [] => none
  | Nat.succ fuel, c :: cs =>
    if c = '"' then some ([], cs)
    else if c = '\\' then
      match cs with
      | [] => none
      | e :: cs2 =>
        if e = '"' then (parseStrBody fuel cs2).map (fun pr => ('"' :: pr.1, pr.2))
        else if e = '\\' then (parseStrBody fuel cs2).map (fun pr => ('\\' :: pr.1, pr.2))
        else if e = '/' then (parseStrBody fuel cs2).map (fun pr => ('/' :: pr.1, pr.2))
        else if e = 'b' then (parseStrBody fuel cs2).map (fun pr => (Char.ofNat 8 :: pr.1, pr.2))
        else if e = 'f' then (parseStrBody fuel cs2).map (fun pr => (Char.ofNat 12 :: pr.1, pr.2))
        else if e = 'n' then (parseStrBody fuel cs2).map (fun pr => ('\n' :: pr.1, pr.2))
        else if e = 'r' then (parseStrBody fuel cs2).map (fun pr => ('\r' :: pr.1, pr.2))
        else if e = 't' then (parseStrBody fuel cs2).map (fun pr => ('\t' :: pr.1, pr.2))
        else if e = 'u' then
          match cs2 with
          | h1 :: h2 :: h3 :: h4 :: cs3 =>
            match hexVal h1, hexVal h2, hexVal h3, hexVal h4 with
            | some a, some b, some c2, some d =>
              (parseStrBody fuel cs3).map
                (fun pr => (Char.ofNat (((a * 16 + b) * 16 + c2) * 16 + d) :: pr.1, pr.2))
            | _, _, _, _ => none
          | _ => none
        else none
    else if c.toNat < 32 then none
    else (parseStrBody fuel cs).map (fun pr => (c :: pr.1, pr.2))

/-- Parse a JSON number token (sign, integer part, optional fraction and
exponent), returning the lexical token and the rest of the input. -/
def parseNumTok (s : List Char) : Option (List Char × List Char) :=
  let (sign, s1) :=
    match s with
    | '-' :: r => ((['-'] : List Char), r)
    | _ => ([], s)
  match s1 with
  | [] => none
  | d :: _ =>
    if !d.isDigit then none
    else
      let (intPart, s2) :=
        if d = '0' then ((['0'] : List Char), s1.tail)
        else (s1.takeWhile Char.isDigit, s1.dropWhile Char.isDigit)
      let fracRes : Option (List Char × List Char) :=
        match s2 with
        | '.' :: r2 =>
          let ds := r2.takeWhile Char.isDigit
          if ds.isEmpty then none else some ('.' :: ds, r2.dropWhile Char.isDigit)
        | _ => some ([], s2)
      match fracRes with
      | none => none
      | some (fracPart, s3) =>
        let expRes : Option (List Char × List Char) :=
          match s3 with
          | e :: r3 =>
            if e = 'e' ∨ e = 'E' then
              let (esign, r4) :=
                match r3 with
                | '+' :: r5 => ((['+'] : List Char), r5)
                | '-' :: r5 => ((['-'] : List Char), r5)
                | _ => ([], r3)
              let ds := r4.takeWhile Char.isDigit
              if ds.isEmpty then none
              else some (e :: esign ++ ds, r4.dropWhile Char.isDigit)
            else some ([], s3)
          | [] => some ([], s3)
        match expRes with
        | none => none
        | some (expPart, s4) => some (sign ++ intPart ++ fracPart ++ expPart, s4)

/-- Insert a field, overwriting an existing key in place (the behaviour of
`JSON.parse` on duplicate keys: last value wins, original position kept). -/
def upsertField : List (List Char × Jv) → List Char → Jv → List (List Char × Jv)
  | [], k, v => [(k, v)]
  | (k0, v0) :: rest, k, v =>
    if k0 = k then (k0, v) :: rest else (k0, v0) :: upsertField rest k v

def lookupField : List (List Char × Jv) → List Char → Option Jv
  | [], _ => none
  | (k0, v) :: rest, k => if k0 = k then some v else lookupField rest k

mutual

/-- Recursive-descent `JSON.parse` on fuel; consumes leading whitespace. -/
def parseValue : Nat → List Char → Option (Jv × List Char)
  | 0, _ => none
  | Nat.succ fuel, s =>
    match skipWs s with
    | [] => none
    | c :: cs =>
      if c = '"' then (parseStrBody (cs.length + 1) cs).map (fun pr => (Jv.jstr pr.1, pr.2))
      else if c = Char.ofNat 123 then parseObjBody fuel (skipWs cs)
      else if c = '[' then parseArrBody fuel (skipWs cs)
      else if c = 't' then
        if isPrefixB (("rue").data) cs then some (Jv.jbool true, cs.drop 3) else none
      else if c = 'f' then
        if isPrefixB (("alse").data) cs then some (Jv.jbool false, cs.drop 4) else none
      else if c = 'n' then
        if isPrefixB (("ull").data) cs then some (Jv.jnull, cs.drop 3) else none
      else (parseNumTok (c :: cs)).map (fun pr => (Jv.jnum pr.1, pr.2))

/-- Array body after the opening bracket (whitespace already skipped). -/
def parseArrBody : Nat → List Char → Option (Jv × List Char)
  | 0, _ => none
  | Nat.succ fuel, s =>
    match s with
    | ']' :: rest => some (Jv.jarr [], rest)
    | _ => parseArrElems fuel s []

/-- Elements of a non-empty array: value, then `,` or `]`. -/
def parseArrElems : Nat → List Char → List Jv → Option (Jv × List Char)
  | 0, _, _ => none
  | Nat.succ fuel, s, acc =>
    match parseValue fuel s with
    | none => none
    | some (v, rest) =>
      match skipWs rest with
      | ',' :: rest2 => parseArrElems fuel rest2 (acc ++ [v])
      | ']' :: rest2 => some (Jv.jarr (acc ++ [v]), rest2)
      | _ => none

/-- Object body after the opening brace (whitespace already skipped). -/
def parseObjBody : Nat → List Char → Option (Jv × List Char)
  | 0, _ => none
  | Nat.succ fuel, s =>
    match s with
    | Char.ofNat 125 :: rest => some (Jv.jobj [], rest)
    | _ => parseObjMembers fuel s []

/-- Members of a non-empty object: `"key"`, `:`, value, then `,` or `}`. -/
def parseObjMembers : Nat → List Char → List (List Char × Jv) → Option (Jv × List Char)
  | 0, _, _ => none
  | Nat.succ fuel, s, acc =>
    match skipWs s with
    | '"' :: rest =>
      match parseStrBody (rest.length + 1) rest with
      | none => none
      | some (key, rest2) =>
        match skipWs rest2 with
        | ':' :: rest3 =>
          match parseValue fuel rest3 with
          | none => none
          | some (v, rest4) =>
            match skipWs rest4 with
            | ',' :: rest5 => parseObjMembers fuel rest5 (upsertField acc key v)
            | Char.ofNat 125 :: rest5 => some (Jv.jobj (upsertField acc key v), rest5)
            | _ => none
        | _ => none
    | _ => none

end

/-- Full-text `JSON.parse`: a single value with only trailing
whitespace allowed.  Returns `none` exactly when `JSON.parse` throws. -/
def jparse (s : List Char) : Option Jv :=
  match parseValue (4 * s.length + 8) s with
  | none => none
  | some (v, rest) => if (skipWs rest).isEmpty then some v else none

/-- One character of `JSON.stringify` string escaping. -/
def escCh (c : Char) : List Char :=
  if c = '"' then ['\\', '"']
  else if c = '\\' then ['\\', '\\']
  else if c = '\n' then ['\\', 'n']
  else if c = '\r' then ['\\', 'r']
  else if c = '\t' then ['\\', 't']
  else if c = Char.ofNat 8 then ['\\', 'b']
  else if c = Char.ofNat 12 then ['\\', 'f']
  else if c.toNat < 32 then
    ['\\', 'u', '0', '0',
     (if c.toNat / 16 < 10 then Char.ofNat (('0').toNat + c.toNat / 16)
      else Char.ofNat (('a').toNat + c.toNat / 16 - 10)),
     (if c.toNat % 16 < 10 then Char.ofNat (('0').toNat + c.toNat % 16)
      else Char.ofNat (('a').toNat + c.toNat % 16 - 10))]
  else [c]

def escapeJs (s : List Char) : List Char := s.flatMap escCh

mutual

/-- Serialization as by `JSON.stringify` with no spacing argument. -/
def strfyV : Jv → List Char
  | Jv.jnull => ("null").data
  | Jv.jbool true => ("true").data
  | Jv.jbool false => ("false").data
  | Jv.jnum r => r
  | Jv.jstr s => '"' :: (escapeJs s ++ ['"'])
  | Jv.jarr xs => '[' :: (strfyArr xs ++ [']'])
  | Jv.jobj fs => Char.ofNat 123 :: (strfyObj fs ++ [Char.ofNat 125])

def strfyArr : List Jv → List Char
  | [] => []
  | [x] => strfyV x
  | x :: y :: rest => strfyV x ++ ',' :: strfyArr (y :: rest)

def strfyObj : List (List Char × Jv) → List Char
  | [] => []
  | [(k, v)] => '"' :: (escapeJs k ++ '"' :: ':' :: strfyV v)
  | (k, v) :: f :: rest =>
    ('"' :: (escapeJs k ++ '"' :: ':' :: strfyV v)) ++ ',' :: strfyObj (f :: rest)

end

/-! ## The streaming relay (src/server.js:164-196) -/

/-- Property access `v.key` on a JSON value: only objects carry the
fields the relay reads (`choices`, `delta`, `content`); on every other
value these accesses yield `undefined`. -/
def jGetField (v : Jv) (k : List Char) : Option Jv :=
  match v with
  | Jv.jobj fs => lookupField fs k
  | _ => none

/-- Index access `v[0]`: array head, object key `"0"`, or single-character
string for string values; `undefined` otherwise. -/
def jIndex0 (v : Jv) : Option Jv :=
  match v with
  | Jv.jarr xs => xs.head?
  | Jv.jobj fs => lookupField fs (("0").data)
  | Jv.jstr s => s.head?.map (fun c => Jv.jstr [c])
  | _ => none

/-- The optional chain `data.choices?.[0]?.delta?.content`. -/
def deltaContent (v : Jv) : Option Jv :=
  ((jGetField v (("choices").data)).bind jIndex0).bind
    (fun d => (jGetField d (("delta").data)).bind
      (fun dd => jGetField dd (("content").data)))

/-- Whether the mantissa of a numeric token denotes zero (JS falsiness of
the number). -/
def numTokIsZero (raw : List Char) : Bool :=
  (raw.takeWhile (fun c => c ≠ 'e' ∧ c ≠ 'E')).all
    (fun c => !c.isDigit || c = '0')

/-- JS truthiness of a JSON value. -/
def jvTruthy (v : Jv) : Bool :=
  match v with
  | Jv.jnull => false
  | Jv.jbool b => b
  | Jv.jnum r => !numTokIsZero r
  | Jv.jstr s => !s.isEmpty
  | Jv.jarr _ => true
  | Jv.jobj _ => true

/-- Apply `f` to the value of an existing field, leaving the list unchanged
when the key is absent. -/
def modifyField (fs : List (List Char × Jv)) (k : List Char) (f : Jv → Jv) :
    List (List Char × Jv) :=
  fs.map (fun kv => if kv.1 = k then (kv.1, f kv.2) else kv)

/-- The assignment `data.choices[0].delta.content = x`.  Property writes on
non-object values are silent no-ops (sloppy mode); the relay only performs
this write when the truthy-content guard already ensured the path consists
of objects (with `choices` an array or object). -/
def setDeltaContent (v : Jv) (newC : Jv) : Jv :=
  let setDelta : Jv → Jv := fun el =>
    match el with
    | Jv.jobj hs =>
      Jv.jobj (modifyField hs (("delta").data) (fun dd =>
        match dd with
        | Jv.jobj ks => Jv.jobj (upsertField ks (("content").data) newC)
        | other => other))
    | other => other
  match v with
  | Jv.jobj fs =>
    Jv.jobj (modifyField fs (("choices").data) (fun ch =>
      match ch with
      | Jv.jarr (x :: rest) => Jv.jarr (setDelta x :: rest)
      | Jv.jobj gs => Jv.jobj (modifyField gs (("0").data) setDelta)
      | other => other))
  | other => other

/-- The SSE write for a re-serialized event:
`res.write("data: " + JSON.stringify(data) + "\n\n")`. -/
def emitData (v : Jv) : List Char :=
  ("data: ").data ++ strfyV v ++ ['\n', '\n']

/-- Processing of one complete candidate line by the stream data handler
(src/server.js:171-189): non-data lines produce no writes; a data line
containing `[DONE]` is forwarded with a newline; otherwise the payload is
parsed, a truthy string delta content is cleaned and the event
re-serialized, a parse failure forwards the raw line with a newline.  A
parsed `null` payload also forwards the raw line: the access
`data.choices` is not guarded by optional chaining on `data` itself, so it
throws a type error on `null` and the catch writes the line; the same
catch handles the type error thrown by cleaning a truthy non-string
content. -/
def processLine (line : List Char) : List (List Char) :=
  if isPrefixB (("data: ").data) line then
    if containsSub (("[DONE]").data) line then [line ++ ['\n']]
    else
      match jparse (line.drop 6) with
      | none => [line ++ ['\n']]
      | some Jv.jnull => [line ++ ['\n']]
      | some dat =>
        match deltaContent dat with
        | some c =>
          if jvTruthy c then
            match c with
            | Jv.jstr s => [emitData (setDeltaContent dat (Jv.jstr (cleanResponse s)))]
            | _ => [line ++ ['\n']]
          else [emitData dat]
        | none => [emitData dat]
  else []

/-- Model of `lines.forEach(...)`: each complete line is processed in order and the
writes are concatenated. -/
def processLines : List (List Char) → List (List Char)
  | [] => []
  | l :: ls => processLine l ++ processLines ls

/-- JS `String.prototype.split` on a single newline character. -/
def splitNl : List Char → List (List Char)
  | [] => [[]]
  | c :: cs =>
    if c = '\n' then [] :: splitNl cs
    else
      match splitNl cs with
      | [] => [[c]]
      | l :: ls => (c :: l) :: ls

/-- One `data` event of the stream handler: append the chunk to the
buffer, split on newline, keep the trailing (possibly partial) segment as
the new buffer and process every complete line. -/
def relayStep (buffer chunk : List Char) : List Char × List (List Char) :=
  let lines := splitNl (buffer ++ chunk)
  ((lines.getLast?).getD [], processLines lines.dropLast)

/-- All writes produced by a run of the relay over a chunk sequence,
starting from the empty buffer; on stream end the trailing buffer is
discarded and no further write occurs. -/
def relayChunks (chunks : List (List Char)) : List (List Char) :=
  (chunks.foldl
    (fun st chunk =>
      let r := relayStep st.1 chunk
      (r.1, st.2 ++ r.2))
    (([], []) : List Char × List (List Char))).2

/-! ## Request handling (`processChat`, both variants) -/

/-- A chat message. -/
structure Msg where
  role : String
  content : String
deriving DecidableEq

/-- The `MODELS` mapping table (identical in both variants,
src/server.js:30-39). -/
def MODELS : List (String × String) :=
  [("gpt-3.5-turbo", "deepseek-v3.2"),
   ("gpt-4", "deepseek-v3.2"),
   ("gpt-4-turbo", "deepseek-v3.2"),
   ("gpt-4o", "deepseek-v3.2"),
   ("claude-3-opus", "deepseek-v3.2"),
   ("claude-3-sonnet", "deepseek-v3.2"),
   ("gemini-pro", "deepseek-v3.2"),
   ("deepseek-v3.2", "deepseek-v3.2")]

/-- Own-property lookup in the `MODELS` object literal. -/
def lookupStr : String → List (String × String) → Option String
  | _, [] => none
  | m, (k, v) :: rest => if m = k then some v else lookupStr m rest

/-- The property names the `MODELS` object literal inherits from
`Object.prototype`: reading any of these as `MODELS[model]` yields a
truthy inherited value, not `undefined`. -/
def objectProtoProps : List String :=
  ["constructor", "hasOwnProperty", "isPrototypeOf", "propertyIsEnumerable",
   "toLocaleString", "toString", "valueOf", "__proto__", "__defineGetter__",
   "__defineSetter__", "__lookupGetter__", "__lookupSetter__"]

/-- A JS value obtained by property read on the `MODELS` object literal:
either one of its own string values, or an inherited `Object.prototype`
member (identified by its name) — a function, or the prototype object for
the accessor `__proto__` — which is truthy and not a string. -/
inductive ModelVal where
  | strv : String → ModelVal
  | protoFn : String → ModelVal
deriving DecidableEq

/-- The property read `MODELS[model]`: own properties first, then the
prototype chain (`Object.prototype`), then `undefined`. -/
def readModelsProp (m : String) : Option ModelVal :=
  match lookupStr m MODELS with
  | some v => some (ModelVal.strv v)
  | none =>
    if m ∈ objectProtoProps then some (ModelVal.protoFn m) else none

/-- JS truthiness of a value read from `MODELS`: a string is truthy iff
non-empty; inherited functions and objects are always truthy. -/
def modelValTruthy : ModelVal → Bool
  | ModelVal.strv s => !s.isEmpty
  | ModelVal.protoFn _ => true

/-- Model lookup `MODELS[model] || "deepseek-v3.2"`: a falsy read (absent
name, or a present but empty string) falls back to the default, while any
truthy read — including a truthy value inherited from `Object.prototype`
for names like `toString` — is used as-is. -/
def mapModel (m : String) : ModelVal :=
  match readModelsProp m with
  | some v => if modelValTruthy v then v else ModelVal.strv ("deepseek-v3.2")
  | none => ModelVal.strv ("deepseek-v3.2")

/-- The `CREATIVE_WRITING_PROMPT` message (src/server.js:42-45). -/
def CREATIVE_WRITING_PROMPT : Msg :=
  { role := "system",
    content := "You must respond ONLY in English. You are a creative writing assistant. Write engaging, vivid narratives. Do not show reasoning or thinking process - provide direct creative responses. Focus on immersive storytelling." }

/-- The directive textually prefixed onto an existing leading system
message (src/server.js:133). -/
def ENGLISH_DIRECTIVE : String :=
  "IMPORTANT: Respond ONLY in English. Do not show reasoning. "

/-- Prompt augmentation of the creative variant (src/server.js:127-134):
prepend `CREATIVE_WRITING_PROMPT` unless the first message has role
`system`, in which case `ENGLISH_DIRECTIVE` is prefixed onto its content. -/
def augmentMessages (msgs : List Msg) : List Msg :=
  match msgs with
  | [] => [CREATIVE_WRITING_PROMPT]
  | m :: rest =>
    if m.role = "system" then { m with content := ENGLISH_DIRECTIVE ++ m.content } :: rest
    else CREATIVE_WRITING_PROMPT :: m :: rest

/-- The inbound request body; absent JSON fields are `none`. -/
structure ChatBody where
  model : Option String := none
  messages : Option (List Msg) := none
  temperature : Option ℚ := none
  max_tokens : Option Nat := none
  stream : Option Bool := none

/-- The outbound upstream request body (`iflowRequest`). -/
structure IflowRequest where
  model : ModelVal
  messages : List Msg
  temperature : ℚ
  max_tokens : Nat
  stream : Bool
deriving DecidableEq

/-- Observable outcome of one `processChat` invocation: an error response
with its HTTP status and error `type`, or a dispatched upstream request. -/
inductive ChatOutcome where
  | errorResp : Nat → String → ChatOutcome
  | upstream : IflowRequest → ChatOutcome
deriving DecidableEq

/-- JS falsiness of an optional string (absent or empty). -/
def optStrFalsy : Option String → Bool
  | none => true
  | some s => s.isEmpty

/-- Model of `processChat` of the creative variant (src/server.js:93-157) up to the
upstream call: API-key check, field validation, model mapping, creative
defaults (`temperature` 0.9, `max_tokens || 8192`) and prompt
augmentation.  A present-but-empty `messages` array is truthy and passes
validation. -/
def processChat (apiKey : Option String) (b : ChatBody) : ChatOutcome :=
  if optStrFalsy apiKey then ChatOutcome.errorResp 500 ("server_error")
  else
    match b.model, b.messages with
    | some m, some msgs =>
      if m.isEmpty then ChatOutcome.errorResp 400 ("invalid_request_error")
      else ChatOutcome.upstream
        { model := mapModel m,
          messages := augmentMessages msgs,
          temperature := b.temperature.getD 0.9,
          max_tokens :=
            match b.max_tokens with
            | none => 8192
            | some n => if n = 0 then 8192 else n,
          stream := b.stream.getD false }
    | _, _ => ChatOutcome.errorResp 400 ("invalid_request_error")

/-- Model of `processChat` of the plain variant (src/unnamed/part_000:67-133):
identical key check, validation and model mapping; `temperature` defaults
to 0.7 and the message sequence is forwarded unmodified. -/
def processChatPlain (apiKey : Option String) (b : ChatBody) : ChatOutcome :=
  if optStrFalsy apiKey then ChatOutcome.errorResp 500 ("server_error")
  else
    match b.model, b.messages with
    | some m, some msgs =>
      if m.isEmpty then ChatOutcome.errorResp 400 ("invalid_request_error")
      else ChatOutcome.upstream
        { model := mapModel m,
          messages := msgs,
          temperature := b.temperature.getD 0.7,
          max_tokens :=
            match b.max_tokens with
            | none => 8192
            | some n => if n = 0 then 8192 else n,
          stream := b.stream.getD false }
    | _, _ => ChatOutcome.errorResp 400 ("invalid_request_error")

/-- The model field of a dispatched upstream request, if any. -/
def outcomeModel : ChatOutcome → Option ModelVal
  | ChatOutcome.upstream r => some r.model
  | ChatOutcome.errorResp _ _ => none

/-- The messages field of a dispatched upstream request, if any. -/
def outcomeMessages : ChatOutcome → Option (List Msg)
  | ChatOutcome.upstream r => some r.messages
  | ChatOutcome.errorResp _ _ => none

/-! ## Helper lemmas -/

theorem dropWhile_stable {α : Type} (p : α → Bool) (l : List α) :
    (l.dropWhile p).dropWhile p = l.dropWhile p := by
  induction l with
  | nil => rfl
  | cons a l ih =>
    by_cases h : p a
    · simp [List.dropWhile_cons, h, ih]
    · simp [List.dropWhile_cons, h]

theorem head_not_of_dropWhile {α : Type} (p : α → Bool) (l : List α) (h : α)
    (t : List α) (e : l.dropWhile p = h :: t) : p h = false := by
  induction l with
  | nil => simp at e
  | cons a l ih =>
    by_cases ha : p a
    · rw [List.dropWhile_cons_of_pos ha] at e
      exact ih e
    · rw [List.dropWhile_cons_of_neg ha] at e
      obtain ⟨rfl, rfl⟩ := List.cons.inj e
      simpa using ha

theorem dropWhile_append_last {α : Type} (p : α → Bool) (a : α)
    (ha : p a = false) (l : List α) :
    ∃ m, (l ++ [a]).dropWhile p = m ++ [a] := by
  induction l with
  | nil => exact ⟨[], by simp [List.dropWhile_cons, ha]⟩
  | cons b l ih =>
    by_cases hb : p b
    · obtain ⟨m, hm⟩ := ih
      exact ⟨m, by simpa [List.dropWhile_cons, hb] using hm⟩
    · exact ⟨b :: l, by simp [List.dropWhile_cons, hb]⟩

/-- Trimming is idempotent. -/
theorem jsTrim_idem (s : List Char) : jsTrim (jsTrim s) = jsTrim s := by
  have hA : (jsTrim s).dropWhile isJsWs = jsTrim s := by
    cases ht : s.dropWhile isJsWs with
    | nil => simp [jsTrim, ht]
    | cons h0 t' =>
      have hh : isJsWs h0 = false := head_not_of_dropWhile isJsWs s h0 t' ht
      obtain ⟨m, hm⟩ := dropWhile_append_last isJsWs h0 hh t'.reverse
      have hu : jsTrim s = h0 :: m.reverse := by
        simp [jsTrim, ht, hm]
      rw [hu, List.dropWhile_cons_of_neg (by simp [hh])]
  conv_lhs => rw [jsTrim]
  rw [hA]
  have hrev : (jsTrim s).reverse = (s.dropWhile isJsWs).reverse.dropWhile isJsWs := by
    simp [jsTrim]
  rw [hrev, dropWhile_stable]
  rfl

/-- Every value stored in the concrete `MODELS` table is the default
upstream identifier. -/
theorem lookupStr_MODELS_eq (m v : String) (h : lookupStr m MODELS = some v) :
    v = "deepseek-v3.2" := by
  simp only [ MODELS, lookupStr] at h
  split_ifs at h <;> simp_all

/-! ## Claim theorems -/

/-- Claim C1: when the upstream splits a data line across two chunks (the
first ending mid-line, the second completing the line and its blank-line
terminator), the relay buffers the partial segment and emits exactly one
SSE event whose incremental content equals the reassembled text; for the
concrete chunks of the claim the single emitted event carries content
`Hello`. -/
theorem relay_reassembles_split_chunk :
    relayChunks [("data: \x7b\"choices\":[\x7b\"delta\":\x7b\"content\":\"Hel").data,
                 ("lo\"\x7d\x7d]\x7d\n\n").data] =
      [("data: \x7b\"choices\":[\x7b\"delta\":\x7b\"content\":\"Hello\"\x7d\x7d]\x7d\n\n").data] := by
  decide

/-- Claim C2 (counterexample): the `[DONE]` sentinel does not end the relay
loop.  In a single chunk carrying a `[DONE]` line followed by a content
line, the relay forwards the sentinel and then still processes and emits
the subsequent content event, contradicting the claim that no further
content processing happens for the stream after the sentinel. -/
theorem done_sentinel_does_not_end_loop :
    relayChunks
      [("data: [DONE]\ndata: \x7b\"choices\":[\x7b\"delta\":\x7b\"content\":\"Hi\"\x7d\x7d]\x7d\n\n").data] =
      [("data: [DONE]\n").data,
       ("data: \x7b\"choices\":[\x7b\"delta\":\x7b\"content\":\"Hi\"\x7d\x7d]\x7d\n\n").data] := by
  decide

/-- Claim C2 (amended): a candidate data line containing the `[DONE]`
sentinel is forwarded verbatim (the line itself plus a newline) and ends
the processing of that line only; the relay loop continues with the
remaining candidate lines of the stream. -/
theorem done_sentinel_forwarded_line_scoped (line : List Char)
    (rest : List (List Char))
    (hp : isPrefixB (("data: ").data) line = true)
    (hd : containsSub (("[DONE]").data) line = true) :
    processLine line = [line ++ ['\n']] ∧
    processLines (line :: rest) = (line ++ ['\n']) :: processLines rest := by
  have h1 : processLine line = [line ++ ['\n']] := by simp [processLine, hp, hd]
  exact ⟨h1, by simp [processLines, h1]⟩

/-- Witness for the amended claim C2 at the concrete sentinel line. -/
theorem done_sentinel_forwarded_line_scoped_witness :
    processLine (("data: [DONE]").data) = [("data: [DONE]").data ++ ['\n']] ∧
    processLines [("data: [DONE]").data, ("data: x").data] =
      (("data: [DONE]").data ++ ['\n']) :: processLines [("data: x").data] :=
  done_sentinel_forwarded_line_scoped (("data: [DONE]").data) [("data: x").data]
    rfl rfl

/-- Claim C3 (counterexample): a complete non-data candidate line (an SSE
comment / keep-alive line) is silently dropped by the relay, not passed
through: relaying the chunk containing only that line produces no write at
all. -/
theorem comment_line_dropped :
    relayChunks [(": keep-alive\n").data] = [] ∧ (": keep-alive").data ≠ [] := by
  constructor
  · decide
  · decide

/-- Claim C3 (amended): a candidate line carrying the SSE data prefix
whose payload fails to parse as JSON (and which does not contain the
`[DONE]` sentinel) is passed through unchanged (plus a newline) rather
than dropped and does not terminate the stream, while a candidate line
without the data prefix (comment or keep-alive) is dropped. -/
theorem data_parse_failure_passthrough_nondata_dropped (line : List Char) :
    (isPrefixB (("data: ").data) line = false → processLine line = []) ∧
    (isPrefixB (("data: ").data) line = true →
     containsSub (("[DONE]").data) line = false →
     jparse (line.drop 6) = none →
     processLine line = [line ++ ['\n']]) := by
  constructor
  · intro h
    simp [processLine, h]
  · intro h1 h2 h3
    simp [processLine, h1, h2, h3]

/-- Witness for the amended claim C3 at a concrete comment line and a
concrete malformed data line. -/
theorem data_parse_failure_passthrough_nondata_dropped_witness :
    processLine ((":ping").data) = [] ∧
    processLine (("data: oops").data) = [("data: oops").data ++ ['\n']] :=
  ⟨(data_parse_failure_passthrough_nondata_dropped ((":ping").data)).1 rfl,
   (data_parse_failure_passthrough_nondata_dropped (("data: oops").data)).2
     rfl rfl rfl⟩

/-- Claim C4 (counterexample): `cleanResponse` is not idempotent.  Removing
a span can splice the surrounding text into a new markup span: one pass on
the input leaves a fresh think-span which a second pass removes. -/
theorem cleanResponse_not_idempotent :
    cleanResponse (cleanResponse (("<th<think>a</think>ink>b</think>").data)) ≠
      cleanResponse (("<th<think>a</think>ink>b</think>").data) := by
  decide

/-- Claim C4 (amended): the cleaning transform is idempotent on every
input whose cleaned result is left unchanged by the four removal passes
(in particular whenever one pass leaves no removable markup), since
trimming is idempotent; for general inputs a second application can strip
further spans assembled by the first. -/
theorem cleanResponse_idem_of_stable (s : List Char)
    (h : removePasses (cleanResponse s) = cleanResponse s) :
    cleanResponse (cleanResponse s) = cleanResponse s := by
  by_cases h0 : cleanResponse s = []
  · rw [h0]
    rfl
  · have hs : s ≠ [] := by
      intro hs
      apply h0
      rw [hs]
      rfl
    set u := cleanResponse s with hu
    rw [cleanResponse, if_neg h0, h, hu]
    have hcl : cleanResponse s = jsTrim (removePasses s) := by
      rw [cleanResponse, if_neg hs]
    rw [hcl]
    exact jsTrim_idem _

/-- Witness for the amended claim C4 at a concrete stable input. -/
theorem cleanResponse_idem_of_stable_witness :
    cleanResponse (cleanResponse (("A<think>s</think>B").data)) =
      cleanResponse (("A<think>s</think>B").data) :=
  cleanResponse_idem_of_stable (("A<think>s</think>B").data) (by decide)

/-- Claim C5 (counterexample): the fallback to the default identifier does
not hold for every non-key model name.  The name `toString` is not a key
of `MODELS`, but the property read walks the prototype chain and yields
the truthy inherited `Object.prototype.toString` function, so the `||`
fallback never fires and the upstream request carries that non-string
value as its model field (a function-valued field is then omitted
entirely by `JSON.stringify`), not `deepseek-v3.2`. -/
theorem model_mapping_proto_leak :
    lookupStr ("toString") MODELS = none ∧
    outcomeModel (processChat (some ("key"))
      { model := some ("toString"), messages := some [] }) =
      some (ModelVal.protoFn ("toString")) ∧
    outcomeModel (processChatPlain (some ("key"))
      { model := some ("toString"), messages := some [] }) =
      some (ModelVal.protoFn ("toString")) ∧
    ModelVal.protoFn ("toString") ≠ ModelVal.strv ("deepseek-v3.2") := by
  refine ⟨by decide, by decide, by decide, by decide⟩

/-- Claim C5 (amended): for a valid chat request whose model name is a key
of the `MODELS` table, the dispatched upstream request carries the mapped
value; for a model name that is neither a key nor the name of a property
inherited from `Object.prototype`, it carries the configured default
identifier `deepseek-v3.2`; for an inherited property name (`toString`,
`constructor`, `__proto__`, ...) the truthy inherited value survives the
`||` and becomes the model field instead of the default.  Both variants
behave identically. -/
theorem upstream_model_mapping (k m : String) (msgs : List Msg)
    (t : Option ℚ) (mt : Option Nat) (st : Option Bool)
    (hk : k.isEmpty = false) (hm : m.isEmpty = false) :
    (∀ v, lookupStr m MODELS = some v →
      outcomeModel (processChat (some k)
        { model := some m, messages := some msgs, temperature := t,
          max_tokens := mt, stream := st }) = some (ModelVal.strv v) ∧
      outcomeModel (processChatPlain (some k)
        { model := some m, messages := some msgs, temperature := t,
          max_tokens := mt, stream := st }) = some (ModelVal.strv v)) ∧
    (lookupStr m MODELS = none → m ∉ objectProtoProps →
      outcomeModel (processChat (some k)
        { model := some m, messages := some msgs, temperature := t,
          max_tokens := mt, stream := st }) =
        some (ModelVal.strv ("deepseek-v3.2")) ∧
      outcomeModel (processChatPlain (some k)
        { model := some m, messages := some msgs, temperature := t,
          max_tokens := mt, stream := st }) =
        some (ModelVal.strv ("deepseek-v3.2"))) ∧
    (lookupStr m MODELS = none → m ∈ objectProtoProps →
      outcomeModel (processChat (some k)
        { model := some m, messages := some msgs, temperature := t,
          max_tokens := mt, stream := st }) = some (ModelVal.protoFn m) ∧
      outcomeModel (processChatPlain (some k)
        { model := some m, messages := some msgs, temperature := t,
          max_tokens := mt, stream := st }) = some (ModelVal.protoFn m)) := by
  refine ⟨?_, ?_, ?_⟩
  · intro v hv
    have hveq := lookupStr_MODELS_eq m v hv
    subst hveq
    constructor <;>
      simp [processChat, processChatPlain, optStrFalsy, hk, hm, outcomeModel,
        mapModel, readModelsProp, modelValTruthy, hv]
  · intro hn hp
    constructor <;>
      simp [processChat, processChatPlain, optStrFalsy, hk, hm, outcomeModel,
        mapModel, readModelsProp, modelValTruthy, hn, hp]
  · intro hn hp
    constructor <;>
      simp [processChat, processChatPlain, optStrFalsy, hk, hm, outcomeModel,
        mapModel, readModelsProp, modelValTruthy, hn, hp]

/-- Witness for the amended claim C5 at a mapped key, at an unmapped plain
name and at an inherited property name. -/
theorem upstream_model_mapping_witness :
    outcomeModel (processChat (some ("key"))
      { model := some ("gpt-4"), messages := some [] }) =
      some (ModelVal.strv ("deepseek-v3.2")) ∧
    outcomeModel (processChatPlain (some ("key"))
      { model := some ("my-custom-model"), messages := some [] }) =
      some (ModelVal.strv ("deepseek-v3.2")) ∧
    outcomeModel (processChat (some ("key"))
      { model := some ("hasOwnProperty"), messages := some [] }) =
      some (ModelVal.protoFn ("hasOwnProperty")) :=
  ⟨((upstream_model_mapping ("key") ("gpt-4") [] none none none rfl rfl).1
      ("deepseek-v3.2") rfl).1,
   ((upstream_model_mapping ("key") ("my-custom-model") [] none none none
      rfl rfl).2.1 rfl (by decide)).2,
   ((upstream_model_mapping ("key") ("hasOwnProperty") [] none none none
      rfl rfl).2.2 rfl (by decide)).1⟩

/-- Claim C6: with the API key configured, a request whose `model` or
`messages` field is absent is answered with HTTP 400 and error type
`invalid_request_error` in both variants; the outcome is an error
response, so no upstream request is dispatched. -/
theorem missing_fields_invalid_request (k : String) (b : ChatBody)
    (hk : k.isEmpty = false) (h : b.model = none ∨ b.messages = none) :
    processChat (some k) b = ChatOutcome.errorResp 400 ("invalid_request_error") ∧
    processChatPlain (some k) b =
      ChatOutcome.errorResp 400 ("invalid_request_error") := by
  rcases h with h | h
  · constructor <;> simp [processChat, processChatPlain, optStrFalsy, hk, h]
  · rcases hbm : b.model with _ | m <;>
      constructor <;>
      simp [processChat, processChatPlain, optStrFalsy, hk, h, hbm]

/-- Witness for claim C6 at a request missing the model field. -/
theorem missing_fields_invalid_request_witness :
    processChat (some ("key")) { model := none, messages := some [] } =
      ChatOutcome.errorResp 400 ("invalid_request_error") ∧
    processChatPlain (some ("key")) { model := none, messages := some [] } =
      ChatOutcome.errorResp 400 ("invalid_request_error") :=
  missing_fields_invalid_request ("key") { model := none, messages := some [] }
    rfl (Or.inl rfl)

/-- Claim C7: when the upstream API key is not configured, every chat
request is answered with HTTP 500 and error type `server_error` in both
variants, regardless of the request content (in particular this takes
precedence over the missing-field validation), and no upstream request is
dispatched; the handler is a total function, so the process does not
crash. -/
theorem missing_api_key_server_error (b : ChatBody) :
    processChat none b = ChatOutcome.errorResp 500 ("server_error") ∧
    processChatPlain none b = ChatOutcome.errorResp 500 ("server_error") := by
  constructor <;> rfl

/-- Claim C8: the cleaning transform removes full bracketed reasoning
spans, bracketed localized thinking spans and angle-bracket
think / thinking spans, case-insensitively and across lines, delimiters
included, and trims the result; in particular the concrete input of the
claim maps to `AB`. -/
theorem cleanResponse_removes_markup_spans :
    cleanResponse (("A<think>secret</think>B").data) = ("AB").data ∧
    cleanResponse (("A<THINK>se\ncret</ThInK>B").data) = ("AB").data ∧
    cleanResponse (("x[REASONING]multi\nline[/reasoning]y").data) = ("xy").data ∧
    cleanResponse (("[æ€è€ƒ]abc[/æ€è€ƒ]ok").data) = ("ok").data ∧
    cleanResponse (("  <thinking>a</thinking> hi ").data) = ("hi").data := by
  decide

/-- Claim C9: in the creative variant the prompt augmentation prepends the
fixed creative-writing system message when the first message is not a
system message (also when the list is empty), and otherwise textually
prefixes the fixed English directive onto the content of the existing
leading system message; the transform is a pure total function and the
dispatched upstream request carries exactly its result. -/
theorem prompt_augmentation_spec (msgs : List Msg) (k m : String)
    (t : Option ℚ) (mt : Option Nat) (st : Option Bool)
    (hk : k.isEmpty = false) (hm : m.isEmpty = false) :
    (msgs.head?.map Msg.role ≠ some ("system") →
      augmentMessages msgs = CREATIVE_WRITING_PROMPT :: msgs) ∧
    (∀ m0 rest, msgs = m0 :: rest → m0.role = "system" →
      augmentMessages msgs =
        { m0 with content := ENGLISH_DIRECTIVE ++ m0.content } :: rest) ∧
    outcomeMessages (processChat (some k)
      { model := some m, messages := some msgs, temperature := t,
        max_tokens := mt, stream := st }) = some (augmentMessages msgs) := by
  refine ⟨?_, ?_, ?_⟩
  · intro h
    cases msgs with
    | nil => rfl
    | cons m0 rest =>
      have hr : ¬ m0.role = "system" := by simpa using h
      simp [augmentMessages, hr]
  · intro m0 rest he hr
    subst he
    simp [augmentMessages, hr]
  · simp [processChat, optStrFalsy, hk, hm, outcomeMessages]

/-- Witness for claim C9 covering both augmentation branches and the
dispatched message sequence. -/
theorem prompt_augmentation_spec_witness :
    augmentMessages [{ role := "user", content := "hi" }] =
      CREATIVE_WRITING_PROMPT :: [{ role := "user", content := "hi" }] ∧
    augmentMessages [{ role := "system", content := "s" }] =
      [{ role := "system", content := ENGLISH_DIRECTIVE ++ "s" }] ∧
    outcomeMessages (processChat (some ("key"))
      { model := some ("gpt-4"),
        messages := some [{ role := "user", content := "hi" }] }) =
      some (augmentMessages [{ role := "user", content := "hi" }]) :=
  ⟨(prompt_augmentation_spec [{ role := "user", content := "hi" }] ("key")
      ("gpt-4") none none none rfl rfl).1 (by decide),
   (prompt_augmentation_spec [{ role := "system", content := "s" }] ("key")
      ("gpt-4") none none none rfl rfl).2.1
      { role := "system", content := "s" } [] rfl rfl,
   (prompt_augmentation_spec [{ role := "user", content := "hi" }] ("key")
      ("gpt-4") none none none rfl rfl).2.2⟩

/-- Claim C10: a request whose `messages` field is present but an empty
array passes validation (an empty JS array is truthy) and is dispatched
upstream: the plain variant forwards the empty sequence unchanged, while
the creative variant dispatches the fixed system prompt prepended to the
empty sequence. -/
theorem empty_messages_dispatched (k m : String) (t : Option ℚ)
    (mt : Option Nat) (st : Option Bool)
    (hk : k.isEmpty = false) (hm : m.isEmpty = false) :
    outcomeMessages (processChatPlain (some k)
      { model := some m, messages := some [], temperature := t,
        max_tokens := mt, stream := st }) = some [] ∧
    outcomeMessages (processChat (some k)
      { model := some m, messages := some [], temperature := t,
        max_tokens := mt, stream := st }) = some [CREATIVE_WRITING_PROMPT] := by
  constructor <;>
    simp [processChat, processChatPlain, optStrFalsy, hk, hm, outcomeMessages,
      augmentMessages]

/-- Witness for claim C10 at a concrete valid request with empty
messages. -/
theorem empty_messages_dispatched_witness :
    outcomeMessages (processChatPlain (some ("key"))
      { model := some ("gpt-4"), messages := some [] }) = some [] ∧
    outcomeMessages (processChat (some ("key"))
      { model := some ("gpt-4"), messages := some [] }) =
      some [CREATIVE_WRITING_PROMPT] :=
  empty_messages_dispatched ("key") ("gpt-4") none none none rfl rfl
